import Mathlib

/-!
# Math::Vector2 (src/inc/vector2.h)

A shallow embedding of the class template `Math::Vector2<_Type>`.

* The element type `_Type` is a type parameter `α`; the operators the source
  applies to it (`+`, `-`, `*`, construction from the literal `0`) are taken
  from the instances `Add α`, `Sub α`, `Mul α`, `OfNat α 0`.
* Every member function receives `this` and its `const Vector2&` argument by
  reference, so objects live in a store indexed by addresses and a member
  function is a function of the receiver's address, the argument's address and
  the store.  The two addresses may be equal (`v += v`).
* A function returning `Vector2<_Type>` by value returns the value together
  with the store it leaves; a function returning `Vector2<_Type>&` returns the
  address it refers to together with the store it leaves.
* A compound assignment `a op= b` on the element type is read as
  `a = a op b`, as it is for every built-in arithmetic type.
* For the error behaviour the same member functions are embedded a second
  time, in `Math.Checked`, over an element type whose arithmetic may fail
  (an exception thrown by a user-defined `_Type`, a trap on overflow): each
  function returns `none` as soon as an element operation it performs fails,
  and `some` of its result otherwise.
-/

namespace Math

/-- The two public data members `_Type x, y;` of the class. -/
structure Vector2 (α : Type) where
  x : α
  y : α
deriving DecidableEq, Repr

/-- An address of a `Vector2` object. -/
abbrev Addr := Nat

/-- The objects of type `Vector2<_Type>` in memory, by address. -/
abbrev Store (α : Type) := Addr → Vector2 α

namespace Store

variable {α : Type}

/-- The store after a write to the member `x` of the object at `p`. -/
def setX (st : Store α) (p : Addr) (v : α) : Store α :=
  fun q => if q = p then { st q with x := v } else st q

/-- The store after a write to the member `y` of the object at `p`. -/
def setY (st : Store α) (p : Addr) (v : α) : Store α :=
  fun q => if q = p then { st q with y := v } else st q

/-- The store after an object with initial value `v` has been created at `p`
(a declaration `Vector2<_Type> p = v;`). -/
def declare (st : Store α) (p : Addr) (v : Vector2 α) : Store α :=
  fun q => if q = p then v else st q

end Store

namespace Vector2

variable {α : Type}

/-- Source: `Vector2() : x(0), y(0) { }`. -/
def ctor_default [OfNat α 0] : Vector2 α :=
  { x := 0, y := 0 }

/-- Source: `Vector2(const _Type& f) : x(f), y(f) { }`. -/
def ctor_scalar (f : α) : Vector2 α :=
  { x := f, y := f }

/-- Source: `Vector2(const _Type& x1, const _Type& y1) : x(x1), y(y1) { }`. -/
def ctor_xy (x1 y1 : α) : Vector2 α :=
  { x := x1, y := y1 }

/-- Source: `Vector2(const Vector2<_Type>& other) { x = other.x; y = other.y; }`.
The value of the object under construction, read from the object at `other`. -/
def ctor_copy (other : Addr) (st : Store α) : Vector2 α :=
  let x := (st other).x
  let y := (st other).y
  { x := x, y := y }

/-- Source: `operator=`: `x = other.x; y = other.y; return *this;`. -/
def operator_assign (self other : Addr) (st : Store α) : Addr × Store α :=
  let st1 := st.setX self (st other).x
  let st2 := st1.setY self (st1 other).y
  (self, st2)

/-- Source: `operator+`:
`return Vector2<_Type>(x + other.x, y + other.y);`. -/
def operator_add [Add α] (self other : Addr) (st : Store α) : Vector2 α × Store α :=
  (ctor_xy ((st self).x + (st other).x) ((st self).y + (st other).y), st)

/-- Source: `operator+=`: `x += other.x; y += other.y; return *this;`. -/
def operator_add_assign [Add α] (self other : Addr) (st : Store α) : Addr × Store α :=
  let st1 := st.setX self ((st self).x + (st other).x)
  let st2 := st1.setY self ((st1 self).y + (st1 other).y)
  (self, st2)

/-- Source: `operator-`:
`return Vector2<_Type>(x - other.x, y - other.y);`. -/
def operator_sub [Sub α] (self other : Addr) (st : Store α) : Vector2 α × Store α :=
  (ctor_xy ((st self).x - (st other).x) ((st self).y - (st other).y), st)

/-- Source: `operator-=`: `x -= other.x; y -= other.y; return *this;`. -/
def operator_sub_assign [Sub α] (self other : Addr) (st : Store α) : Addr × Store α :=
  let st1 := st.setX self ((st self).x - (st other).x)
  let st2 := st1.setY self ((st1 self).y - (st1 other).y)
  (self, st2)

/-- Source: `operator*(const Vector2<_Type>& other)`:
`return Vector2<_Type>(x * other.x, y * other.y);`. -/
def operator_mul [Mul α] (self other : Addr) (st : Store α) : Vector2 α × Store α :=
  (ctor_xy ((st self).x * (st other).x) ((st self).y * (st other).y), st)

/-- Source: `operator*=`: `x *= other.x; y *= other.y; return *this;`. -/
def operator_mul_assign [Mul α] (self other : Addr) (st : Store α) : Addr × Store α :=
  let st1 := st.setX self ((st self).x * (st other).x)
  let st2 := st1.setY self ((st1 self).y * (st1 other).y)
  (self, st2)

/-- Source: `operator*(const _Type& scalar)`:
`return Vector2<_Type>(x * scalar, y * scalar);`. -/
def operator_mul_scalar [Mul α] (self : Addr) (scalar : α) (st : Store α) :
    Vector2 α × Store α :=
  (ctor_xy ((st self).x * scalar) ((st self).y * scalar), st)

end Vector2

/-- A call of one of the mutating member functions (`=`, `+=`, `-=`, `*=`) on
some receiver, with the address of its argument. -/
inductive Mutation where
  | assign (arg : Addr)
  | add_assign (arg : Addr)
  | sub_assign (arg : Addr)
  | mul_assign (arg : Addr)
deriving DecidableEq, Repr

/-- The store left by one mutating call on the receiver at `self`. -/
def Mutation.run {α : Type} [Add α] [Sub α] [Mul α] (self : Addr) :
    Mutation → Store α → Store α
  | .assign arg, st => (Vector2.operator_assign self arg st).2
  | .add_assign arg, st => (Vector2.operator_add_assign self arg st).2
  | .sub_assign arg, st => (Vector2.operator_sub_assign self arg st).2
  | .mul_assign arg, st => (Vector2.operator_mul_assign self arg st).2

/-- The store left by a sequence of mutating calls on the receiver at `self`,
run from left to right. -/
def mutate {α : Type} [Add α] [Sub α] [Mul α] (self : Addr) :
    List Mutation → Store α → Store α
  | [], st => st
  | m :: ms, st => mutate self ms (m.run self st)

/-- A store of `Vector2<int>` objects in which every object is the zero
vector, used to build concrete stores. -/
def zeroStore : Store Int :=
  fun _ => Vector2.ctor_default

/-- The store holding `Vector2<int>(a, b)` at address 0 and
`Vector2<int>(c, d)` at address 1. -/
def twoVectors (a b c d : Int) : Store Int :=
  (zeroStore.declare 0 (Vector2.ctor_xy a b)).declare 1 (Vector2.ctor_xy c d)

/-- A fixed-width integer of `w` bits with wrap-around arithmetic: a natural
number below `2 ^ w`, whose `+`, `-` and `*` are taken modulo `2 ^ w`. -/
abbrev Wrap (w : Nat) := Fin (2 ^ w)

/-- A store of vectors of 8-bit integers in which every object is the zero
vector. -/
def zeroBytes : Store (Wrap 8) :=
  fun _ => Vector2.ctor_default

/-- The store of vectors of 8-bit integers holding `(a, b)` at address 0 and
`(c, d)` at address 1. -/
def twoBytes (a b c d : Wrap 8) : Store (Wrap 8) :=
  (zeroBytes.declare 0 (Vector2.ctor_xy a b)).declare 1 (Vector2.ctor_xy c d)

/-- The arithmetic of the element type `_Type` as the class uses it, each
operation being allowed to fail: `zero` is the conversion `_Type(0)` of the
default constructor, `add`, `sub`, `mul` are `+`, `-`, `*` (and `+=`, `-=`,
`*=`); `none` is an exception or a trap raised by the operation. -/
structure ElemOps (α : Type) where
  zero : Option α
  add : α → α → Option α
  sub : α → α → Option α
  mul : α → α → Option α

/-- The element type supports its arithmetic: `_Type(0)` yields a value and
`+`, `-`, `*` yield a value on all operands. -/
def ElemOps.Total {α : Type} (ops : ElemOps α) : Prop :=
  (∃ z, ops.zero = some z) ∧
  (∀ a b, ∃ c, ops.add a b = some c) ∧
  (∀ a b, ∃ c, ops.sub a b = some c) ∧
  (∀ a b, ∃ c, ops.mul a b = some c)

/-- The arithmetic of an element type whose operators never fail, given by its
instances. -/
def ElemOps.ofInstances {α : Type} [Add α] [Sub α] [Mul α] [OfNat α 0] : ElemOps α :=
  { zero := some 0
    add := fun a b => some (a + b)
    sub := fun a b => some (a - b)
    mul := fun a b => some (a * b) }

/-- The value `r` when it lies in the range of an 8-bit signed integer, a
failure otherwise. -/
def trapRange (r : Int) : Option Int :=
  if -128 ≤ r ∧ r ≤ 127 then some r else none

/-- An element type that does not support its arithmetic on all operands:
8-bit signed integers whose `+`, `-`, `*` trap on overflow. -/
def trapOps : ElemOps Int :=
  { zero := some 0
    add := fun a b => trapRange (a + b)
    sub := fun a b => trapRange (a - b)
    mul := fun a b => trapRange (a * b) }

namespace Checked

variable {α : Type}

/-- Source: `Vector2() : x(0), y(0) { }`. -/
def ctor_default (ops : ElemOps α) : Option (Vector2 α) := do
  let x ← ops.zero
  let y ← ops.zero
  pure { x := x, y := y }

/-- Source: `Vector2(const _Type& f) : x(f), y(f) { }`. -/
def ctor_scalar (f : α) : Option (Vector2 α) :=
  pure { x := f, y := f }

/-- Source: `Vector2(const _Type& x1, const _Type& y1) : x(x1), y(y1) { }`. -/
def ctor_xy (x1 y1 : α) : Option (Vector2 α) :=
  pure { x := x1, y := y1 }

/-- Source: `Vector2(const Vector2<_Type>& other) { x = other.x; y = other.y; }`. -/
def ctor_copy (other : Addr) (st : Store α) : Option (Vector2 α) := do
  let x := (st other).x
  let y := (st other).y
  pure { x := x, y := y }

/-- Source: `operator=`: `x = other.x; y = other.y; return *this;`. -/
def operator_assign (self other : Addr) (st : Store α) : Option (Addr × Store α) := do
  let st1 := st.setX self (st other).x
  let st2 := st1.setY self (st1 other).y
  pure (self, st2)

/-- Source: `operator+`:
`return Vector2<_Type>(x + other.x, y + other.y);`. -/
def operator_add (ops : ElemOps α) (self other : Addr) (st : Store α) :
    Option (Vector2 α × Store α) := do
  let x ← ops.add (st self).x (st other).x
  let y ← ops.add (st self).y (st other).y
  let v ← ctor_xy x y
  pure (v, st)

/-- Source: `operator+=`: `x += other.x; y += other.y; return *this;`. -/
def operator_add_assign (ops : ElemOps α) (self other : Addr) (st : Store α) :
    Option (Addr × Store α) := do
  let x ← ops.add (st self).x (st other).x
  let st1 := st.setX self x
  let y ← ops.add (st1 self).y (st1 other).y
  let st2 := st1.setY self y
  pure (self, st2)

/-- Source: `operator-`:
`return Vector2<_Type>(x - other.x, y - other.y);`. -/
def operator_sub (ops : ElemOps α) (self other : Addr) (st : Store α) :
    Option (Vector2 α × Store α) := do
  let x ← ops.sub (st self).x (st other).x
  let y ← ops.sub (st self).y (st other).y
  let v ← ctor_xy x y
  pure (v, st)

/-- Source: `operator-=`: `x -= other.x; y -= other.y; return *this;`. -/
def operator_sub_assign (ops : ElemOps α) (self other : Addr) (st : Store α) :
    Option (Addr × Store α) := do
  let x ← ops.sub (st self).x (st other).x
  let st1 := st.setX self x
  let y ← ops.sub (st1 self).y (st1 other).y
  let st2 := st1.setY self y
  pure (self, st2)

/-- Source: `operator*(const Vector2<_Type>& other)`:
`return Vector2<_Type>(x * other.x, y * other.y);`. -/
def operator_mul (ops : ElemOps α) (self other : Addr) (st : Store α) :
    Option (Vector2 α × Store α) := do
  let x ← ops.mul (st self).x (st other).x
  let y ← ops.mul (st self).y (st other).y
  let v ← ctor_xy x y
  pure (v, st)

/-- Source: `operator*=`: `x *= other.x; y *= other.y; return *this;`. -/
def operator_mul_assign (ops : ElemOps α) (self other : Addr) (st : Store α) :
    Option (Addr × Store α) := do
  let x ← ops.mul (st self).x (st other).x
  let st1 := st.setX self x
  let y ← ops.mul (st1 self).y (st1 other).y
  let st2 := st1.setY self y
  pure (self, st2)

/-- Source: `operator*(const _Type& scalar)`:
`return Vector2<_Type>(x * scalar, y * scalar);`. -/
def operator_mul_scalar (ops : ElemOps α) (self : Addr) (scalar : α) (st : Store α) :
    Option (Vector2 α × Store α) := do
  let x ← ops.mul (st self).x scalar
  let y ← ops.mul (st self).y scalar
  let v ← ctor_xy x y
  pure (v, st)

end Checked

/-! ## Store lemmas -/

section StoreLemmas

variable {α : Type}

@[simp] theorem Store.setX_same (st : Store α) (p : Addr) (v : α) :
    st.setX p v p = { st p with x := v } := by
  simp [Store.setX]

@[simp] theorem Store.setX_other (st : Store α) (p q : Addr) (v : α) (h : q ≠ p) :
    st.setX p v q = st q := by
  simp [Store.setX, h]

@[simp] theorem Store.setY_same (st : Store α) (p : Addr) (v : α) :
    st.setY p v p = { st p with y := v } := by
  simp [Store.setY]

@[simp] theorem Store.setY_other (st : Store α) (p q : Addr) (v : α) (h : q ≠ p) :
    st.setY p v q = st q := by
  simp [Store.setY, h]

@[simp] theorem Store.declare_same (st : Store α) (p : Addr) (v : Vector2 α) :
    st.declare p v p = v := by
  simp [Store.declare]

@[simp] theorem Store.declare_other (st : Store α) (p q : Addr) (v : Vector2 α)
    (h : q ≠ p) : st.declare p v q = st q := by
  simp [Store.declare, h]

/-- The assignment operator writes only to its receiver. -/
theorem Vector2.operator_assign_other (st : Store α) (self other q : Addr)
    (h : q ≠ self) : (Vector2.operator_assign self other st).2 q = st q := by
  simp [Vector2.operator_assign, h]

/-- The operator `+=` writes only to its receiver. -/
theorem Vector2.operator_add_assign_other [Add α] (st : Store α) (self other q : Addr)
    (h : q ≠ self) : (Vector2.operator_add_assign self other st).2 q = st q := by
  simp [Vector2.operator_add_assign, h]

/-- The operator `-=` writes only to its receiver. -/
theorem Vector2.operator_sub_assign_other [Sub α] (st : Store α) (self other q : Addr)
    (h : q ≠ self) : (Vector2.operator_sub_assign self other st).2 q = st q := by
  simp [Vector2.operator_sub_assign, h]

/-- The operator `*=` writes only to its receiver. -/
theorem Vector2.operator_mul_assign_other [Mul α] (st : Store α) (self other q : Addr)
    (h : q ≠ self) : (Vector2.operator_mul_assign self other st).2 q = st q := by
  simp [Vector2.operator_mul_assign, h]

/-- One mutating call on the receiver at `self` leaves every other object as
it was. -/
theorem Mutation.run_other [Add α] [Sub α] [Mul α] (m : Mutation) (st : Store α)
    (self q : Addr) (h : q ≠ self) : m.run self st q = st q := by
  cases m with
  | assign arg => exact Vector2.operator_assign_other st self arg q h
  | add_assign arg => exact Vector2.operator_add_assign_other st self arg q h
  | sub_assign arg => exact Vector2.operator_sub_assign_other st self arg q h
  | mul_assign arg => exact Vector2.operator_mul_assign_other st self arg q h

/-- A sequence of mutating calls on the receiver at `self` leaves every other
object as it was. -/
theorem mutate_other [Add α] [Sub α] [Mul α] (ms : List Mutation) (st : Store α)
    (self q : Addr) (h : q ≠ self) : mutate self ms st q = st q := by
  induction ms generalizing st with
  | nil => rfl
  | cons m ms ih =>
    show mutate self ms (m.run self st) q = st q
    rw [ih (m.run self st), Mutation.run_other m st self q h]

/-- The receiver after `+=`, in terms of the store before the call. -/
theorem Vector2.operator_add_assign_self [Add α] (st : Store α) (self other : Addr) :
    (Vector2.operator_add_assign self other st).2 self =
      Vector2.ctor_xy ((st self).x + (st other).x) ((st self).y + (st other).y) := by
  by_cases h : other = self
  · subst h
    simp [Vector2.operator_add_assign, Vector2.ctor_xy]
  · simp [Vector2.operator_add_assign, Vector2.ctor_xy, h]

/-- The receiver after `-=`, in terms of the store before the call. -/
theorem Vector2.operator_sub_assign_self [Sub α] (st : Store α) (self other : Addr) :
    (Vector2.operator_sub_assign self other st).2 self =
      Vector2.ctor_xy ((st self).x - (st other).x) ((st self).y - (st other).y) := by
  by_cases h : other = self
  · subst h
    simp [Vector2.operator_sub_assign, Vector2.ctor_xy]
  · simp [Vector2.operator_sub_assign, Vector2.ctor_xy, h]

/-- The receiver after `*=`, in terms of the store before the call. -/
theorem Vector2.operator_mul_assign_self [Mul α] (st : Store α) (self other : Addr) :
    (Vector2.operator_mul_assign self other st).2 self =
      Vector2.ctor_xy ((st self).x * (st other).x) ((st self).y * (st other).y) := by
  by_cases h : other = self
  · subst h
    simp [Vector2.operator_mul_assign, Vector2.ctor_xy]
  · simp [Vector2.operator_mul_assign, Vector2.ctor_xy, h]

/-- Addition in `Wrap w` is addition of the representatives modulo `2 ^ w`. -/
theorem Wrap.val_add (w : Nat) (a b : Wrap w) :
    (a + b).val = (a.val + b.val) % 2 ^ w :=
  Fin.val_add a b

/-- Multiplication in `Wrap w` is multiplication of the representatives modulo
`2 ^ w`. -/
theorem Wrap.val_mul (w : Nat) (a b : Wrap w) :
    (a * b).val = (a.val * b.val) % 2 ^ w :=
  Fin.val_mul a b

/-- Subtraction in `Wrap w` wraps modulo `2 ^ w`. -/
theorem Wrap.val_sub (w : Nat) (a b : Wrap w) :
    (a - b).val = ((2 ^ w - b.val) + a.val) % 2 ^ w := by
  rw [Fin.sub_def]

end StoreLemmas

/-! ## Component-wise arithmetic -/

section Arithmetic

variable {α : Type}

/-- C1: for all scalars a, b, c, d, `operator+` applied to a receiver holding
`Vector2(a,b)` and an argument holding `Vector2(c,d)` returns the vector whose
x is `a+c` and whose y is `b+d`. -/
theorem operator_add_componentwise [Add α] (st : Store α) (self other : Addr)
    (a b c d : α) (hv : st self = Vector2.ctor_xy a b)
    (hw : st other = Vector2.ctor_xy c d) :
    (Vector2.operator_add self other st).1 = Vector2.ctor_xy (a + c) (b + d) ∧
    (Vector2.operator_add self other st).1.x = a + c ∧
    (Vector2.operator_add self other st).1.y = b + d := by
  simp [Vector2.operator_add, Vector2.ctor_xy, hv, hw]

/-- C1 at the spec's example: `Vector2<int>(3,5) + Vector2<int>(0,1)` is
`Vector2<int>(3,6)`. -/
theorem operator_add_componentwise_witness :
    (Vector2.operator_add 0 1 (twoVectors 3 5 0 1)).1 = Vector2.ctor_xy 3 6 ∧
    (Vector2.operator_add 0 1 (twoVectors 3 5 0 1)).1.x = 3 ∧
    (Vector2.operator_add 0 1 (twoVectors 3 5 0 1)).1.y = 6 :=
  operator_add_componentwise (twoVectors 3 5 0 1) 0 1 3 5 0 1 (by decide) (by decide)

/-- C2: for all scalars a, b, c, d, `operator-` applied to a receiver holding
`Vector2(a,b)` and an argument holding `Vector2(c,d)` returns the vector whose
x is `a-c` and whose y is `b-d`. -/
theorem operator_sub_componentwise [Sub α] (st : Store α) (self other : Addr)
    (a b c d : α) (hv : st self = Vector2.ctor_xy a b)
    (hw : st other = Vector2.ctor_xy c d) :
    (Vector2.operator_sub self other st).1 = Vector2.ctor_xy (a - c) (b - d) ∧
    (Vector2.operator_sub self other st).1.x = a - c ∧
    (Vector2.operator_sub self other st).1.y = b - d := by
  simp [Vector2.operator_sub, Vector2.ctor_xy, hv, hw]

/-- C2 at the source's example: `Vector2(0, 1) - Vector2(3, 5)` over `int` is
`Vector2(-3, -4)`. -/
theorem operator_sub_componentwise_witness :
    (Vector2.operator_sub 0 1 (twoVectors 0 1 3 5)).1 = Vector2.ctor_xy (-3) (-4) ∧
    (Vector2.operator_sub 0 1 (twoVectors 0 1 3 5)).1.x = -3 ∧
    (Vector2.operator_sub 0 1 (twoVectors 0 1 3 5)).1.y = -4 :=
  operator_sub_componentwise (twoVectors 0 1 3 5) 0 1 0 1 3 5 (by decide) (by decide)

/-- C3: for all scalars a, b, c, d, the vector-by-vector `operator*` applied
to a receiver holding `Vector2(a,b)` and an argument holding `Vector2(c,d)`
returns the vector `(a*c, b*d)`.  Each field of the result depends only on the
matching fields of the operands: in any other store whose operands have the
same x fields the result has the same x, and likewise for y.  It is not the dot
product: for `Vector2<int>(1,2) * Vector2<int>(3,4)` the result is `(3, 8)`
and neither field is `1*3 + 2*4`. -/
theorem operator_mul_componentwise [Mul α] (st : Store α) (self other : Addr)
    (a b c d : α) (hv : st self = Vector2.ctor_xy a b)
    (hw : st other = Vector2.ctor_xy c d) :
    (Vector2.operator_mul self other st).1 = Vector2.ctor_xy (a * c) (b * d) ∧
    (∀ st2 : Store α, (st2 self).x = a → (st2 other).x = c →
      (Vector2.operator_mul self other st2).1.x = (Vector2.operator_mul self other st).1.x) ∧
    (∀ st2 : Store α, (st2 self).y = b → (st2 other).y = d →
      (Vector2.operator_mul self other st2).1.y = (Vector2.operator_mul self other st).1.y) ∧
    ((Vector2.operator_mul 0 1 (twoVectors 1 2 3 4)).1 = Vector2.ctor_xy 3 8 ∧
      (Vector2.operator_mul 0 1 (twoVectors 1 2 3 4)).1.x ≠ 1 * 3 + 2 * 4 ∧
      (Vector2.operator_mul 0 1 (twoVectors 1 2 3 4)).1.y ≠ 1 * 3 + 2 * 4) := by
  refine ⟨?_, ?_, ?_, ?_⟩
  · simp [Vector2.operator_mul, Vector2.ctor_xy, hv, hw]
  · intro st2 h1 h2
    simp [Vector2.operator_mul, Vector2.ctor_xy, hv, hw, h1, h2]
  · intro st2 h1 h2
    simp [Vector2.operator_mul, Vector2.ctor_xy, hv, hw, h1, h2]
  · decide

/-- C3 at the source's example: `Vector2(0, 1) * Vector2(3, 4)` over `int` is
`Vector2(0, 4)`, and changing the y fields of the operands leaves x at 0. -/
theorem operator_mul_componentwise_witness :
    (Vector2.operator_mul 0 1 (twoVectors 0 1 3 4)).1 = Vector2.ctor_xy 0 4 ∧
    (Vector2.operator_mul 0 1 (twoVectors 0 7 3 9)).1.x =
      (Vector2.operator_mul 0 1 (twoVectors 0 1 3 4)).1.x ∧
    (Vector2.operator_mul 0 1 (twoVectors 5 1 6 4)).1.y =
      (Vector2.operator_mul 0 1 (twoVectors 0 1 3 4)).1.y :=
  have h := operator_mul_componentwise (twoVectors 0 1 3 4) 0 1 0 1 3 4
    (by decide) (by decide)
  ⟨h.1, h.2.1 (twoVectors 0 7 3 9) (by decide) (by decide),
    h.2.2.1 (twoVectors 5 1 6 4) (by decide) (by decide)⟩

/-- C4: for all scalars a, b, s, the vector-by-scalar `operator*` applied to a
receiver holding `Vector2(a,b)` and the scalar `s` returns the vector
`(a*s, b*s)`, the scalar being the right factor in both components. -/
theorem operator_mul_scalar_componentwise [Mul α] (st : Store α) (self : Addr)
    (a b s : α) (hv : st self = Vector2.ctor_xy a b) :
    (Vector2.operator_mul_scalar self s st).1 = Vector2.ctor_xy (a * s) (b * s) ∧
    (Vector2.operator_mul_scalar self s st).1.x = a * s ∧
    (Vector2.operator_mul_scalar self s st).1.y = b * s := by
  simp [Vector2.operator_mul_scalar, Vector2.ctor_xy, hv]

/-- C4 at a concrete input: `Vector2<int>(3,5) * 2` is `Vector2<int>(6,10)`. -/
theorem operator_mul_scalar_componentwise_witness :
    (Vector2.operator_mul_scalar 0 2 (twoVectors 3 5 0 1)).1 = Vector2.ctor_xy 6 10 ∧
    (Vector2.operator_mul_scalar 0 2 (twoVectors 3 5 0 1)).1.x = 6 ∧
    (Vector2.operator_mul_scalar 0 2 (twoVectors 3 5 0 1)).1.y = 10 :=
  operator_mul_scalar_componentwise (twoVectors 3 5 0 1) 0 3 5 2 (by decide)

end Arithmetic

/-! ## Mutating operators, copies and frames -/

section Mutating

variable {α : Type}

/-- C5: for every receiver and every argument (the receiver itself included),
the receiver after `+=`, `-=`, `*=` holds the fields of the value that the
non-mutating `+`, `-`, `*` returns on the store before the update. -/
theorem mutating_matches_nonmutating [Add α] [Sub α] [Mul α] (st : Store α)
    (self other : Addr) :
    (Vector2.operator_add_assign self other st).2 self =
      (Vector2.operator_add self other st).1 ∧
    (Vector2.operator_sub_assign self other st).2 self =
      (Vector2.operator_sub self other st).1 ∧
    (Vector2.operator_mul_assign self other st).2 self =
      (Vector2.operator_mul self other st).1 := by
  by_cases h : other = self
  · subst h
    simp [Vector2.operator_add_assign, Vector2.operator_add, Vector2.operator_sub_assign,
      Vector2.operator_sub, Vector2.operator_mul_assign, Vector2.operator_mul,
      Vector2.ctor_xy]
  · simp [Vector2.operator_add_assign, Vector2.operator_add, Vector2.operator_sub_assign,
      Vector2.operator_sub, Vector2.operator_mul_assign, Vector2.operator_mul,
      Vector2.ctor_xy, h]

/-- The spec's example for C5: `Vector2<int>(0,3) *= Vector2<int>(2,2)` leaves
the receiver equal to `Vector2<int>(0,6)`. -/
theorem operator_mul_assign_example :
    (Vector2.operator_mul_assign 0 1 (twoVectors 0 3 2 2)).2 0 = Vector2.ctor_xy 0 6 := by
  decide

/-- C6, as stated, fails when the argument is the receiver itself: with
`v = Vector2<int>(2,3)`, each of `v += v`, `v -= v`, `v *= v` changes the
argument operand `v`, to `(4,6)`, `(0,0)` and `(4,9)`. -/
theorem argument_unchanged_counterexample :
    (Vector2.operator_add_assign 0 0 (twoVectors 2 3 0 0)).2 0 ≠ (twoVectors 2 3 0 0) 0 ∧
    (Vector2.operator_sub_assign 0 0 (twoVectors 2 3 0 0)).2 0 ≠ (twoVectors 2 3 0 0) 0 ∧
    (Vector2.operator_mul_assign 0 0 (twoVectors 2 3 0 0)).2 0 ≠ (twoVectors 2 3 0 0) 0 ∧
    (Vector2.operator_add_assign 0 0 (twoVectors 2 3 0 0)).2 0 = Vector2.ctor_xy 4 6 ∧
    (Vector2.operator_sub_assign 0 0 (twoVectors 2 3 0 0)).2 0 = Vector2.ctor_xy 0 0 ∧
    (Vector2.operator_mul_assign 0 0 (twoVectors 2 3 0 0)).2 0 = Vector2.ctor_xy 4 9 := by
  decide

/-- C6 (amended): for every receiver and every argument that is a different
object from the receiver, `+=`, `-=` and `*=` leave the argument operand
unchanged: its fields after the operation equal its fields before it. -/
theorem argument_unchanged_of_distinct [Add α] [Sub α] [Mul α] (st : Store α)
    (self other : Addr) (h : other ≠ self) :
    (Vector2.operator_add_assign self other st).2 other = st other ∧
    (Vector2.operator_sub_assign self other st).2 other = st other ∧
    (Vector2.operator_mul_assign self other st).2 other = st other :=
  ⟨Vector2.operator_add_assign_other st self other other h,
    Vector2.operator_sub_assign_other st self other other h,
    Vector2.operator_mul_assign_other st self other other h⟩

/-- C6 (amended) at a concrete input: after each of `+=`, `-=`, `*=` on
`Vector2<int>(0,3)` with the argument `Vector2<int>(2,2)` held by another
object, the argument is still `Vector2<int>(2,2)`. -/
theorem argument_unchanged_of_distinct_witness :
    (Vector2.operator_add_assign 0 1 (twoVectors 0 3 2 2)).2 1 = twoVectors 0 3 2 2 1 ∧
    (Vector2.operator_sub_assign 0 1 (twoVectors 0 3 2 2)).2 1 = twoVectors 0 3 2 2 1 ∧
    (Vector2.operator_mul_assign 0 1 (twoVectors 0 3 2 2)).2 1 = twoVectors 0 3 2 2 1 :=
  argument_unchanged_of_distinct (twoVectors 0 3 2 2) 0 1 (by decide)

/-- C7, as stated, fails when the receiver of the assignment is `s` itself:
with `s = Vector2<int>(3,5)`, after `s = s` the result of the assignment is the
object `s`, and mutating it by `+= Vector2<int>(1,1)` leaves `s` equal to
`(4,6)`: the result is not independent of `s`. -/
theorem copy_independent_counterexample :
    (Vector2.operator_assign 0 0 (twoVectors 3 5 1 1)).1 = 0 ∧
    mutate (Vector2.operator_assign 0 0 (twoVectors 3 5 1 1)).1 [.add_assign 1]
      (Vector2.operator_assign 0 0 (twoVectors 3 5 1 1)).2 0 = Vector2.ctor_xy 4 6 ∧
    mutate (Vector2.operator_assign 0 0 (twoVectors 3 5 1 1)).1 [.add_assign 1]
      (Vector2.operator_assign 0 0 (twoVectors 3 5 1 1)).2 0 ≠ twoVectors 3 5 1 1 0 := by
  decide

/-- C7 (amended): for every vector `s`, the copy constructor called on `s` and
the assignment from `s` (whatever the receiver held before, the receiver `s`
itself included) produce a vector whose x and y are those of `s`, and `s` is
unchanged by the assignment itself.  When the copy `c` is an object other than
`s`: `s` is unchanged by the creation of the copy, and any later sequence of
`=`, `+=`, `-=`, `*=` on the copy, with any arguments, leaves `s` unchanged. -/
theorem copy_equal_and_independent [Add α] [Sub α] [Mul α] (st : Store α) (c s : Addr) :
    ((Vector2.ctor_copy s st).x = (st s).x ∧ (Vector2.ctor_copy s st).y = (st s).y) ∧
    (((Vector2.operator_assign c s st).2 c).x = (st s).x ∧
      ((Vector2.operator_assign c s st).2 c).y = (st s).y) ∧
    (Vector2.operator_assign c s st).2 s = st s ∧
    (c ≠ s →
      (st.declare c (Vector2.ctor_copy s st)) c = st s ∧
      (st.declare c (Vector2.ctor_copy s st)) s = st s ∧
      (∀ ms : List Mutation,
        mutate c ms (st.declare c (Vector2.ctor_copy s st)) s = st s) ∧
      (∀ ms : List Mutation,
        mutate c ms (Vector2.operator_assign c s st).2 s = st s)) := by
  refine ⟨⟨rfl, rfl⟩, ?_, ?_, ?_⟩
  · by_cases h : s = c
    · subst h
      simp [Vector2.operator_assign]
    · simp [Vector2.operator_assign, h]
  · by_cases h : s = c
    · subst h
      simp [Vector2.operator_assign]
    · exact Vector2.operator_assign_other st c s s h
  · intro hne
    have hsc : s ≠ c := fun h => hne h.symm
    refine ⟨?_, ?_, ?_, ?_⟩
    · simp [Vector2.ctor_copy]
    · simp [hsc]
    · intro ms
      rw [mutate_other ms _ c s hsc]
      simp [hsc]
    · intro ms
      rw [mutate_other ms _ c s hsc]
      exact Vector2.operator_assign_other st c s s hsc

/-- C7 (amended) at a concrete input: with `s = Vector2<int>(3,5)` at address 1, a copy
of `s` created at address 0 and an assignment from `s` to the object at
address 0 both hold `(3,5)`; after `c *= s; c += c; c -= s; c = c` on the
copy, `s` is still `(3,5)`. -/
theorem copy_equal_and_independent_witness :
    Vector2.ctor_copy 1 (twoVectors 7 9 3 5) = Vector2.ctor_xy 3 5 ∧
    (Vector2.operator_assign 0 1 (twoVectors 7 9 3 5)).2 0 = Vector2.ctor_xy 3 5 ∧
    mutate 0 [.mul_assign 1, .add_assign 0, .sub_assign 1, .assign 0]
      ((twoVectors 7 9 3 5).declare 0 (Vector2.ctor_copy 1 (twoVectors 7 9 3 5))) 1 =
      twoVectors 7 9 3 5 1 ∧
    mutate 0 [.mul_assign 1, .add_assign 0, .sub_assign 1, .assign 0]
      (Vector2.operator_assign 0 1 (twoVectors 7 9 3 5)).2 1 = twoVectors 7 9 3 5 1 :=
  have h := copy_equal_and_independent (twoVectors 7 9 3 5) 0 1
  have h2 := h.2.2.2 (by decide)
  ⟨by decide, by decide, h2.2.2.1 _, h2.2.2.2 _⟩

/-- C8: for all scalars a, b of an element type in which `0` is a two-sided
identity of `+`, `Vector2(a,b) + Vector2(0,0)` is `Vector2(a,b)`, and
`Vector2(0,0)` is the value the default constructor produces. -/
theorem operator_add_zero [AddZeroClass α] (st : Store α) (self other : Addr)
    (a b : α) (hv : st self = Vector2.ctor_xy a b)
    (hw : st other = Vector2.ctor_xy 0 0) :
    (Vector2.operator_add self other st).1 = Vector2.ctor_xy a b ∧
    (Vector2.ctor_default : Vector2 α) = Vector2.ctor_xy 0 0 := by
  simp [Vector2.operator_add, Vector2.ctor_xy, Vector2.ctor_default, hv, hw]

/-- C8 at a concrete input: `Vector2<int>(3,5)` plus a default-constructed
`Vector2<int>` is `Vector2<int>(3,5)`. -/
theorem operator_add_zero_witness :
    (Vector2.operator_add 0 1
      ((twoVectors 3 5 1 1).declare 1 Vector2.ctor_default)).1 = Vector2.ctor_xy 3 5 ∧
    (Vector2.ctor_default : Vector2 Int) = Vector2.ctor_xy 0 0 :=
  operator_add_zero ((twoVectors 3 5 1 1).declare 1 Vector2.ctor_default) 0 1 3 5
    (by decide) (by decide)

/-- C9: the default constructor yields x = 0 and y = 0; for every scalar f the
one-argument constructor yields x = f and y = f; for all scalars x1, y1 the
two-argument constructor yields x = x1 and y = y1, in that order; an object
created from a constructed value holds that value. -/
theorem constructors_initialise [OfNat α 0] (f x1 y1 : α) (st : Store α) (p : Addr) :
    ((Vector2.ctor_default : Vector2 α).x = 0 ∧ (Vector2.ctor_default : Vector2 α).y = 0) ∧
    ((Vector2.ctor_scalar f).x = f ∧ (Vector2.ctor_scalar f).y = f) ∧
    ((Vector2.ctor_xy x1 y1).x = x1 ∧ (Vector2.ctor_xy x1 y1).y = y1) ∧
    ((st.declare p (Vector2.ctor_xy x1 y1) p).x = x1 ∧
      (st.declare p (Vector2.ctor_xy x1 y1) p).y = y1) := by
  simp [Vector2.ctor_default, Vector2.ctor_scalar, Vector2.ctor_xy]

/-- C10: the non-mutating operators do not mutate their operands: after
`v + w`, `v - w`, `v * w` or `v * s` the store is the store before the call, so
the fields of the receiver and of the argument are the same as before. -/
theorem nonmutating_frame [Add α] [Sub α] [Mul α] (st : Store α) (self other : Addr)
    (scalar : α) :
    ((Vector2.operator_add self other st).2 = st ∧
      (Vector2.operator_add self other st).2 self = st self ∧
      (Vector2.operator_add self other st).2 other = st other) ∧
    ((Vector2.operator_sub self other st).2 = st ∧
      (Vector2.operator_sub self other st).2 self = st self ∧
      (Vector2.operator_sub self other st).2 other = st other) ∧
    ((Vector2.operator_mul self other st).2 = st ∧
      (Vector2.operator_mul self other st).2 self = st self ∧
      (Vector2.operator_mul self other st).2 other = st other) ∧
    ((Vector2.operator_mul_scalar self scalar st).2 = st ∧
      (Vector2.operator_mul_scalar self scalar st).2 self = st self ∧
      (Vector2.operator_mul_scalar self scalar st).2 other = st other) :=
  ⟨⟨rfl, rfl, rfl⟩, ⟨rfl, rfl, rfl⟩, ⟨rfl, rfl, rfl⟩, ⟨rfl, rfl, rfl⟩⟩

end Mutating

/-! ## Returned references and the documented reading of subtraction -/

section References

variable {α : Type}

/-- C11, as stated, fails in its chained example when `u` is the receiver
itself: with `v = Vector2<int>(3,5)` and `w = Vector2<int>(0,1)`,
`(v += w) += v` leaves `v` equal to `(6,12)`, while `(v + w) + v` is
`(6,11)`. -/
theorem chained_update_counterexample :
    (Vector2.operator_add_assign (Vector2.operator_add_assign 0 1 (twoVectors 3 5 0 1)).1 0
      (Vector2.operator_add_assign 0 1 (twoVectors 3 5 0 1)).2).2 0 = Vector2.ctor_xy 6 12 ∧
    (Vector2.operator_add 2 0
      ((twoVectors 3 5 0 1).declare 2
        (Vector2.operator_add 0 1 (twoVectors 3 5 0 1)).1)).1 = Vector2.ctor_xy 6 11 ∧
    (Vector2.operator_add_assign (Vector2.operator_add_assign 0 1 (twoVectors 3 5 0 1)).1 0
      (Vector2.operator_add_assign 0 1 (twoVectors 3 5 0 1)).2).2 0 ≠
      (Vector2.operator_add 2 0
        ((twoVectors 3 5 0 1).declare 2
          (Vector2.operator_add 0 1 (twoVectors 3 5 0 1)).1)).1 := by
  decide

/-- C11 (amended): each of `=`, `+=`, `-=`, `*=` returns a reference to the
receiver itself, so the object read through the returned reference is the
receiver after the update.  In the chained update `(v += w) += u` the second
call therefore has receiver `v`, and leaves `v` equal to the sum of `v` after
the first update and `u`; when `u` is an object other than `v` this is `(v + w) + u`, the
temporary `v + w` being held by any object `t` other than `u`. -/
theorem mutating_returns_receiver [Add α] [Sub α] [Mul α] (st : Store α)
    (self other u : Addr) :
    ((Vector2.operator_assign self other st).1 = self ∧
      (Vector2.operator_add_assign self other st).1 = self ∧
      (Vector2.operator_sub_assign self other st).1 = self ∧
      (Vector2.operator_mul_assign self other st).1 = self) ∧
    ((Vector2.operator_assign self other st).2 (Vector2.operator_assign self other st).1 =
        (Vector2.operator_assign self other st).2 self ∧
      (Vector2.operator_add_assign self other st).2
          (Vector2.operator_add_assign self other st).1 =
        (Vector2.operator_add_assign self other st).2 self ∧
      (Vector2.operator_sub_assign self other st).2
          (Vector2.operator_sub_assign self other st).1 =
        (Vector2.operator_sub_assign self other st).2 self ∧
      (Vector2.operator_mul_assign self other st).2
          (Vector2.operator_mul_assign self other st).1 =
        (Vector2.operator_mul_assign self other st).2 self) ∧
    ((Vector2.operator_add_assign (Vector2.operator_add_assign self other st).1 u
        (Vector2.operator_add_assign self other st).2).1 = self ∧
      (Vector2.operator_add_assign (Vector2.operator_add_assign self other st).1 u
        (Vector2.operator_add_assign self other st).2).2 self =
        (Vector2.operator_add self u (Vector2.operator_add_assign self other st).2).1) ∧
    (u ≠ self → ∀ t : Addr, t ≠ u →
      (Vector2.operator_add_assign (Vector2.operator_add_assign self other st).1 u
        (Vector2.operator_add_assign self other st).2).2 self =
        (Vector2.operator_add t u
          (st.declare t (Vector2.operator_add self other st).1)).1) := by
  refine ⟨⟨rfl, rfl, rfl, rfl⟩, ⟨rfl, rfl, rfl, rfl⟩, ⟨rfl, ?_⟩, ?_⟩
  · show (Vector2.operator_add_assign self u
        (Vector2.operator_add_assign self other st).2).2 self = _
    rw [Vector2.operator_add_assign_self]
    rfl
  · intro hu t ht
    have hut : u ≠ t := fun h => ht h.symm
    show (Vector2.operator_add_assign self u
        (Vector2.operator_add_assign self other st).2).2 self = _
    rw [Vector2.operator_add_assign_self, Vector2.operator_add_assign_self,
      Vector2.operator_add_assign_other st self other u hu]
    simp [Vector2.operator_add, Vector2.ctor_xy, hut]

/-- C11 (amended) at a concrete input: with `v = Vector2<int>(3,5)` at address 0 and
`w = u = Vector2<int>(0,1)` at address 1, `(v += w) += u` returns the address
of `v` and leaves `v` equal to `(3,7)`, the value of `(v + w) + u`. -/
theorem mutating_returns_receiver_witness :
    (Vector2.operator_add_assign (Vector2.operator_add_assign 0 1 (twoVectors 3 5 0 1)).1 1
      (Vector2.operator_add_assign 0 1 (twoVectors 3 5 0 1)).2).1 = 0 ∧
    (Vector2.operator_add_assign (Vector2.operator_add_assign 0 1 (twoVectors 3 5 0 1)).1 1
      (Vector2.operator_add_assign 0 1 (twoVectors 3 5 0 1)).2).2 0 =
      (Vector2.operator_add 2 1
        ((twoVectors 3 5 0 1).declare 2
          (Vector2.operator_add 0 1 (twoVectors 3 5 0 1)).1)).1 ∧
    (Vector2.operator_add 2 1
        ((twoVectors 3 5 0 1).declare 2
          (Vector2.operator_add 0 1 (twoVectors 3 5 0 1)).1)).1 = Vector2.ctor_xy 3 7 :=
  have h := mutating_returns_receiver (twoVectors 3 5 0 1) 0 1 1
  ⟨h.2.2.1.1, h.2.2.2 (by decide) 2 (by decide), by decide⟩

/-- C12: over an element type that is an additive group, `v - w` is `v + n`
and `v -= w` leaves the receiver equal to `v + n`, for any object `n` holding
the component-wise negation of `w` (`n.x = 0 - w.x`, `n.y = 0 - w.y`). -/
theorem operator_sub_adds_negation [AddGroup α] (st : Store α) (self other n : Addr)
    (hn : st n = Vector2.ctor_xy (0 - (st other).x) (0 - (st other).y)) :
    (Vector2.operator_sub self other st).1 = (Vector2.operator_add self n st).1 ∧
    (Vector2.operator_sub_assign self other st).2 self =
      (Vector2.operator_add self n st).1 := by
  rw [Vector2.operator_sub_assign_self]
  simp [Vector2.operator_sub, Vector2.operator_add, Vector2.ctor_xy, hn, sub_eq_add_neg]

/-- C12 at the source's example: over `int`, `Vector2(0, 1) - Vector2(3, 5)` is
`Vector2(0, 1) + Vector2(-3, -5)`, and so is the receiver after `-=`. -/
theorem operator_sub_adds_negation_witness :
    (Vector2.operator_sub 0 1 ((twoVectors 0 1 3 5).declare 2 (Vector2.ctor_xy (-3) (-5)))).1 =
      (Vector2.operator_add 0 2
        ((twoVectors 0 1 3 5).declare 2 (Vector2.ctor_xy (-3) (-5)))).1 ∧
    (Vector2.operator_sub_assign 0 1
        ((twoVectors 0 1 3 5).declare 2 (Vector2.ctor_xy (-3) (-5)))).2 0 =
      (Vector2.operator_add 0 2
        ((twoVectors 0 1 3 5).declare 2 (Vector2.ctor_xy (-3) (-5)))).1 :=
  operator_sub_adds_negation ((twoVectors 0 1 3 5).declare 2 (Vector2.ctor_xy (-3) (-5)))
    0 1 2 (by decide)

end References

/-! ## Totality, overloads and aliasing -/

section Behaviour

variable {α : Type}

/-- With an element type whose operators never fail, each checked member
function returns the result of the unchecked one. -/
theorem Checked.agrees_with_unchecked [Add α] [Sub α] [Mul α] [OfNat α 0] (st : Store α)
    (self other : Addr) (f x1 y1 scalar : α) :
    (Checked.ctor_default ElemOps.ofInstances = some (Vector2.ctor_default : Vector2 α) ∧
      Checked.ctor_scalar f = some (Vector2.ctor_scalar f) ∧
      Checked.ctor_xy x1 y1 = some (Vector2.ctor_xy x1 y1) ∧
      Checked.ctor_copy other st = some (Vector2.ctor_copy other st)) ∧
    (Checked.operator_assign self other st = some (Vector2.operator_assign self other st) ∧
      Checked.operator_add_assign ElemOps.ofInstances self other st =
        some (Vector2.operator_add_assign self other st) ∧
      Checked.operator_sub_assign ElemOps.ofInstances self other st =
        some (Vector2.operator_sub_assign self other st) ∧
      Checked.operator_mul_assign ElemOps.ofInstances self other st =
        some (Vector2.operator_mul_assign self other st)) ∧
    (Checked.operator_add ElemOps.ofInstances self other st =
        some (Vector2.operator_add self other st) ∧
      Checked.operator_sub ElemOps.ofInstances self other st =
        some (Vector2.operator_sub self other st) ∧
      Checked.operator_mul ElemOps.ofInstances self other st =
        some (Vector2.operator_mul self other st) ∧
      Checked.operator_mul_scalar ElemOps.ofInstances self scalar st =
        some (Vector2.operator_mul_scalar self scalar st)) :=
  ⟨⟨rfl, rfl, rfl, rfl⟩, ⟨rfl, rfl, rfl, rfl⟩, ⟨rfl, rfl, rfl, rfl⟩⟩

/-- An element type given by its instances supports its arithmetic. -/
theorem ElemOps.ofInstances_total [Add α] [Sub α] [Mul α] [OfNat α 0] :
    (ElemOps.ofInstances : ElemOps α).Total :=
  ⟨⟨0, rfl⟩, fun a b => ⟨a + b, rfl⟩, fun a b => ⟨a - b, rfl⟩, fun a b => ⟨a * b, rfl⟩⟩

/-- A failure of the element type is inherited: over 8-bit signed integers
that trap on overflow, `(100,1) + (100,1)`, `(100,1) += (100,1)`,
`(-100,1) - (100,1)` and `(100,1) * 2` fail, while `(100,1) + (27,1)` returns
`(127,2)`. -/
theorem trapOps_failure_example :
    Checked.operator_add trapOps 0 1 (twoVectors 100 1 100 1) = none ∧
    Checked.operator_add_assign trapOps 0 1 (twoVectors 100 1 100 1) = none ∧
    Checked.operator_sub trapOps 0 1 (twoVectors (-100) 1 100 1) = none ∧
    Checked.operator_mul_scalar trapOps 0 2 (twoVectors 100 1 100 1) = none ∧
    Checked.operator_add trapOps 0 1 (twoVectors 100 1 27 1) =
      some (Vector2.ctor_xy 127 2, twoVectors 100 1 27 1) ∧
    ¬ trapOps.Total := by
  refine ⟨rfl, rfl, rfl, rfl, rfl, ?_⟩
  intro h
  obtain ⟨c, hc⟩ := h.2.1 100 100
  simp [trapOps, trapRange] at hc

/-- C13: there are no error conditions of Vector2's own.  Over an element type
that supports its arithmetic (`_Type(0)`, `+`, `-`, `*` yield a value on all
operands), every operation returns a result for every input: the three
constructors and the copy constructor a vector; `=`, `+=`, `-=`, `*=` the
receiver's address and a store; `+`, `-` and both forms of `*` a vector and
the store they were given. -/
theorem checked_operations_succeed (ops : ElemOps α) (h : ops.Total) (st : Store α)
    (self other : Addr) (f x1 y1 scalar : α) :
    ((∃ v, Checked.ctor_default ops = some v) ∧
      (∃ v, Checked.ctor_scalar f = some v) ∧
      (∃ v, Checked.ctor_xy x1 y1 = some v) ∧
      (∃ v, Checked.ctor_copy other st = some v)) ∧
    ((∃ st2, Checked.operator_assign self other st = some (self, st2)) ∧
      (∃ st2, Checked.operator_add_assign ops self other st = some (self, st2)) ∧
      (∃ st2, Checked.operator_sub_assign ops self other st = some (self, st2)) ∧
      (∃ st2, Checked.operator_mul_assign ops self other st = some (self, st2))) ∧
    ((∃ v, Checked.operator_add ops self other st = some (v, st)) ∧
      (∃ v, Checked.operator_sub ops self other st = some (v, st)) ∧
      (∃ v, Checked.operator_mul ops self other st = some (v, st)) ∧
      (∃ v, Checked.operator_mul_scalar ops self scalar st = some (v, st))) := by
  obtain ⟨⟨z, hz⟩, hadd, hsub, hmul⟩ := h
  refine ⟨⟨?_, ⟨_, rfl⟩, ⟨_, rfl⟩, ⟨_, rfl⟩⟩, ⟨⟨_, rfl⟩, ?_, ?_, ?_⟩, ⟨?_, ?_, ?_, ?_⟩⟩
  · exact ⟨{ x := z, y := z }, by simp [Checked.ctor_default, hz]⟩
  · obtain ⟨x, hx⟩ := hadd (st self).x (st other).x
    obtain ⟨y, hy⟩ := hadd ((st.setX self x) self).y ((st.setX self x) other).y
    simp only [Store.setX_same] at hy
    exact ⟨(st.setX self x).setY self y, by simp [Checked.operator_add_assign, hx, hy]⟩
  · obtain ⟨x, hx⟩ := hsub (st self).x (st other).x
    obtain ⟨y, hy⟩ := hsub ((st.setX self x) self).y ((st.setX self x) other).y
    simp only [Store.setX_same] at hy
    exact ⟨(st.setX self x).setY self y, by simp [Checked.operator_sub_assign, hx, hy]⟩
  · obtain ⟨x, hx⟩ := hmul (st self).x (st other).x
    obtain ⟨y, hy⟩ := hmul ((st.setX self x) self).y ((st.setX self x) other).y
    simp only [Store.setX_same] at hy
    exact ⟨(st.setX self x).setY self y, by simp [Checked.operator_mul_assign, hx, hy]⟩
  · obtain ⟨x, hx⟩ := hadd (st self).x (st other).x
    obtain ⟨y, hy⟩ := hadd (st self).y (st other).y
    exact ⟨{ x := x, y := y }, by simp [Checked.operator_add, Checked.ctor_xy, hx, hy]⟩
  · obtain ⟨x, hx⟩ := hsub (st self).x (st other).x
    obtain ⟨y, hy⟩ := hsub (st self).y (st other).y
    exact ⟨{ x := x, y := y }, by simp [Checked.operator_sub, Checked.ctor_xy, hx, hy]⟩
  · obtain ⟨x, hx⟩ := hmul (st self).x (st other).x
    obtain ⟨y, hy⟩ := hmul (st self).y (st other).y
    exact ⟨{ x := x, y := y }, by simp [Checked.operator_mul, Checked.ctor_xy, hx, hy]⟩
  · obtain ⟨x, hx⟩ := hmul (st self).x scalar
    obtain ⟨y, hy⟩ := hmul (st self).y scalar
    exact ⟨{ x := x, y := y }, by simp [Checked.operator_mul_scalar, Checked.ctor_xy, hx, hy]⟩

/-- C13 at a concrete input: over `int` with its operators, the default
constructor returns `(0,0)`, `Vector2<int>(3,5) += Vector2<int>(0,1)` returns
the receiver's address, and `Vector2<int>(3,5) * Vector2<int>(0,1)` returns a
vector with the store unchanged. -/
theorem checked_operations_succeed_witness :
    (∃ v, Checked.ctor_default (ElemOps.ofInstances : ElemOps Int) = some v) ∧
    (∃ st2, Checked.operator_add_assign ElemOps.ofInstances 0 1 (twoVectors 3 5 0 1) =
      some (0, st2)) ∧
    (∃ v, Checked.operator_mul ElemOps.ofInstances 0 1 (twoVectors 3 5 0 1) =
      some (v, twoVectors 3 5 0 1)) :=
  have h := checked_operations_succeed (ElemOps.ofInstances : ElemOps Int)
    ⟨⟨0, rfl⟩, fun a b => ⟨a + b, rfl⟩, fun a b => ⟨a - b, rfl⟩, fun a b => ⟨a * b, rfl⟩⟩
    (twoVectors 3 5 0 1) 0 1 0 0 0 0
  ⟨h.1.1, h.2.1.2.1, h.2.2.2.2.1⟩

/-- C14: the two overloads of `operator*` agree on broadcast vectors: for
every receiver `v` and scalar `s`, `v * s` equals `v * Vector2(s)`, whichever
object `t` holds the broadcast vector `Vector2(s)`; in particular when it is a
temporary created for the call at an address other than the receiver's. -/
theorem operator_mul_overloads_agree [Mul α] (st : Store α) (self t : Addr) (s : α)
    (ht : st t = Vector2.ctor_scalar s) :
    (Vector2.operator_mul self t st).1 = (Vector2.operator_mul_scalar self s st).1 ∧
    (∀ st0 : Store α, ∀ t0 : Addr, t0 ≠ self →
      (Vector2.operator_mul self t0 (st0.declare t0 (Vector2.ctor_scalar s))).1 =
        (Vector2.operator_mul_scalar self s st0).1) := by
  constructor
  · simp [Vector2.operator_mul, Vector2.operator_mul_scalar, Vector2.ctor_scalar, ht]
  · intro st0 t0 h0
    have h1 : self ≠ t0 := fun h => h0 h.symm
    simp [Vector2.operator_mul, Vector2.operator_mul_scalar, Vector2.ctor_scalar, h1]

/-- C14 at a concrete input: `Vector2<int>(3,5) * 3` and
`Vector2<int>(3,5) * Vector2<int>(3)` are both `Vector2<int>(9,15)`. -/
theorem operator_mul_overloads_agree_witness :
    (Vector2.operator_mul 0 1 ((twoVectors 3 5 0 0).declare 1 (Vector2.ctor_scalar 3))).1 =
      (Vector2.operator_mul_scalar 0 3
        ((twoVectors 3 5 0 0).declare 1 (Vector2.ctor_scalar 3))).1 ∧
    (Vector2.operator_mul_scalar 0 3
        ((twoVectors 3 5 0 0).declare 1 (Vector2.ctor_scalar 3))).1 = Vector2.ctor_xy 9 15 :=
  ⟨(operator_mul_overloads_agree ((twoVectors 3 5 0 0).declare 1 (Vector2.ctor_scalar 3))
      0 1 3 (by decide)).1, by decide⟩

/-- C15, as stated, fails in its last clause: when the argument is the
receiver itself the argument operand need not be changed.  With
`v = Vector2<int>(0,0)`, `v += v` and `v -= v` leave `v`, the argument, equal
to `(0,0)`; with `v = Vector2<int>(0,1)`, `v *= v` leaves it equal to
`(0,1)`. -/
theorem self_argument_changed_counterexample :
    (Vector2.operator_add_assign 0 0 (twoVectors 0 0 0 0)).2 0 = (twoVectors 0 0 0 0) 0 ∧
    (Vector2.operator_sub_assign 0 0 (twoVectors 0 0 0 0)).2 0 = (twoVectors 0 0 0 0) 0 ∧
    (Vector2.operator_mul_assign 0 0 (twoVectors 0 1 0 0)).2 0 = (twoVectors 0 1 0 0) 0 := by
  decide

/-- C15 (amended): when the argument of a mutating operator is the receiver
itself (`v += v`, `v -= v`, `v *= v`), the receiver ends as `(x+x, y+y)`,
`(x-x, y-y)` and `(x*x, y*y)`, the value the non-mutating operator returns on
the original value; the argument operand, being the receiver, ends with those
fields, so it is changed by the operation exactly when one of them differs
from the original field. -/
theorem self_argument_componentwise [Add α] [Sub α] [Mul α] (st : Store α)
    (self : Addr) (x y : α) (hv : st self = Vector2.ctor_xy x y) :
    ((Vector2.operator_add_assign self self st).2 self = Vector2.ctor_xy (x + x) (y + y) ∧
      (Vector2.operator_add_assign self self st).2 self =
        (Vector2.operator_add self self st).1 ∧
      ((Vector2.operator_add_assign self self st).2 self ≠ st self ↔
        (x + x ≠ x ∨ y + y ≠ y))) ∧
    ((Vector2.operator_sub_assign self self st).2 self = Vector2.ctor_xy (x - x) (y - y) ∧
      (Vector2.operator_sub_assign self self st).2 self =
        (Vector2.operator_sub self self st).1 ∧
      ((Vector2.operator_sub_assign self self st).2 self ≠ st self ↔
        (x - x ≠ x ∨ y - y ≠ y))) ∧
    ((Vector2.operator_mul_assign self self st).2 self = Vector2.ctor_xy (x * x) (y * y) ∧
      (Vector2.operator_mul_assign self self st).2 self =
        (Vector2.operator_mul self self st).1 ∧
      ((Vector2.operator_mul_assign self self st).2 self ≠ st self ↔
        (x * x ≠ x ∨ y * y ≠ y))) := by
  rw [Vector2.operator_add_assign_self, Vector2.operator_sub_assign_self,
    Vector2.operator_mul_assign_self, hv]
  simp only [Vector2.operator_add, Vector2.operator_sub, Vector2.operator_mul,
    Vector2.ctor_xy, hv, ne_eq, Vector2.mk.injEq, not_and_or, true_and, and_self]

/-- C15 (amended) at a concrete input: with `v = Vector2<int>(2,3)`, `v += v`,
`v -= v` and `v *= v` leave `v` equal to `(4,6)`, `(0,0)` and `(4,9)`, and the
argument operand `v` is changed by each. -/
theorem self_argument_componentwise_witness :
    ((Vector2.operator_add_assign 0 0 (twoVectors 2 3 0 0)).2 0 = Vector2.ctor_xy 4 6 ∧
      (Vector2.operator_add_assign 0 0 (twoVectors 2 3 0 0)).2 0 ≠ twoVectors 2 3 0 0 0) ∧
    ((Vector2.operator_sub_assign 0 0 (twoVectors 2 3 0 0)).2 0 = Vector2.ctor_xy 0 0 ∧
      (Vector2.operator_sub_assign 0 0 (twoVectors 2 3 0 0)).2 0 ≠ twoVectors 2 3 0 0 0) ∧
    ((Vector2.operator_mul_assign 0 0 (twoVectors 2 3 0 0)).2 0 = Vector2.ctor_xy 4 9 ∧
      (Vector2.operator_mul_assign 0 0 (twoVectors 2 3 0 0)).2 0 ≠ twoVectors 2 3 0 0 0) :=
  have h := self_argument_componentwise (twoVectors 2 3 0 0) 0 2 3 (by decide)
  ⟨⟨h.1.1, h.1.2.2.mpr (by decide)⟩, ⟨h.2.1.1, h.2.1.2.2.mpr (by decide)⟩,
    ⟨h.2.2.1, h.2.2.2.2.mpr (by decide)⟩⟩

end Behaviour

/-! ## Algebraic laws over integer element types

The laws are proved over every element type with the algebraic structure they
need, an additive group or a commutative ring; the exact integers `Int` and the
wrap-around integers `Wrap w` of every width are such types. -/

section Algebra

variable {α : Type}

/-- C16, as stated, fails when the argument `w` is the receiver itself: with
`v = Vector2<int>(1,2)`, `v += v` followed by `v -= v` leaves `v` equal to
`(0,0)`, not to `(1,2)`. -/
theorem add_assign_sub_assign_counterexample :
    (Vector2.operator_sub_assign 0 0
      (Vector2.operator_add_assign 0 0 (twoVectors 1 2 0 0)).2).2 0 = Vector2.ctor_xy 0 0 ∧
    (Vector2.operator_sub_assign 0 0
      (Vector2.operator_add_assign 0 0 (twoVectors 1 2 0 0)).2).2 0 ≠ twoVectors 1 2 0 0 0 := by
  decide

/-- C16 (amended): over an integer element type (any additive group: `Int`,
`Wrap w`), subtraction undoes addition: `(v + w) - w` equals `v` and
`(v - w) + w` equals `v`, the temporary `v + w` or `v - w` being held by an
object `t` other than `w`; and when `w` is an object other than `v`, `v += w`
followed by `v -= w` restores the receiver's original fields. -/
theorem sub_undoes_add [AddGroup α] (st : Store α) (v w t : Addr) (ht : t ≠ w) :
    (Vector2.operator_sub t w (st.declare t (Vector2.operator_add v w st).1)).1 = st v ∧
    (Vector2.operator_add t w (st.declare t (Vector2.operator_sub v w st).1)).1 = st v ∧
    (w ≠ v →
      (Vector2.operator_sub_assign v w (Vector2.operator_add_assign v w st).2).2 v =
        st v) := by
  have hwt : w ≠ t := fun h => ht h.symm
  refine ⟨?_, ?_, ?_⟩
  · simp [Vector2.operator_sub, Vector2.operator_add, Vector2.ctor_xy, hwt]
  · simp [Vector2.operator_sub, Vector2.operator_add, Vector2.ctor_xy, hwt]
  · intro hwv
    rw [Vector2.operator_sub_assign_self, Vector2.operator_add_assign_self,
      Vector2.operator_add_assign_other st v w w hwv]
    simp [Vector2.ctor_xy]

/-- C16 (amended) at concrete inputs.  Over `int`: with `v = (3,5)` and
`w = (7,-2)`, `(v + w) - w`, `(v - w) + w` and the receiver after
`v += w; v -= w` are `(3,5)`.  Over 8-bit wrap-around integers: with
`v = (200,3)` and `w = (100,5)`, where `200 + 100` and `3 - 5` wrap, they are
`(200,3)`. -/
theorem sub_undoes_add_witness :
    ((Vector2.operator_sub 2 1
        ((twoVectors 3 5 7 (-2)).declare 2
          (Vector2.operator_add 0 1 (twoVectors 3 5 7 (-2))).1)).1 = Vector2.ctor_xy 3 5 ∧
      (Vector2.operator_add 2 1
        ((twoVectors 3 5 7 (-2)).declare 2
          (Vector2.operator_sub 0 1 (twoVectors 3 5 7 (-2))).1)).1 = Vector2.ctor_xy 3 5 ∧
      (Vector2.operator_sub_assign 0 1
        (Vector2.operator_add_assign 0 1 (twoVectors 3 5 7 (-2))).2).2 0 =
        Vector2.ctor_xy 3 5) ∧
    ((Vector2.operator_sub 2 1
        ((twoBytes 200 3 100 5).declare 2
          (Vector2.operator_add 0 1 (twoBytes 200 3 100 5)).1)).1 = Vector2.ctor_xy 200 3 ∧
      (Vector2.operator_add 2 1
        ((twoBytes 200 3 100 5).declare 2
          (Vector2.operator_sub 0 1 (twoBytes 200 3 100 5)).1)).1 = Vector2.ctor_xy 200 3 ∧
      (Vector2.operator_sub_assign 0 1
        (Vector2.operator_add_assign 0 1 (twoBytes 200 3 100 5)).2).2 0 =
        Vector2.ctor_xy 200 3) :=
  have h := sub_undoes_add (twoVectors 3 5 7 (-2)) 0 1 2 (by decide)
  have k := sub_undoes_add (twoBytes 200 3 100 5) 0 1 2 (by decide)
  ⟨⟨h.1, h.2.1, h.2.2 (by decide)⟩, ⟨k.1, k.2.1, k.2.2 (by decide)⟩⟩

/-- The wrap-around in the 8-bit inputs of the C16 and C17 witnesses:
`(200,3) + (100,5)` is `(44,8)` and `(200,3) - (100,5)` is `(100,254)`. -/
theorem twoBytes_wrap_example :
    (Vector2.operator_add 0 1 (twoBytes 200 3 100 5)).1 = Vector2.ctor_xy 44 8 ∧
    (Vector2.operator_sub 0 1 (twoBytes 200 3 100 5)).1 = Vector2.ctor_xy 100 254 ∧
    (Vector2.operator_mul 0 1 (twoBytes 200 3 100 5)).1 = Vector2.ctor_xy 32 15 := by
  decide

/-- C17: over an integer element type (any commutative ring: `Int`,
`Wrap w`), `v + w` equals `w + v`, `v * w` equals `w * v`, and
`(v + w) * s` equals `(v * s) + (w * s)`, the temporary `v + w` being held by
any object `t` and the temporaries `v * s` and `w * s` by two different
objects `t1` and `t2`. -/
theorem add_mul_comm_and_scale_distrib [CommRing α] (st : Store α)
    (v w t t1 t2 : Addr) (s : α) (h12 : t1 ≠ t2) :
    (Vector2.operator_add v w st).1 = (Vector2.operator_add w v st).1 ∧
    (Vector2.operator_mul v w st).1 = (Vector2.operator_mul w v st).1 ∧
    (Vector2.operator_mul_scalar t s (st.declare t (Vector2.operator_add v w st).1)).1 =
      (Vector2.operator_add t1 t2
        ((st.declare t1 (Vector2.operator_mul_scalar v s st).1).declare t2
          (Vector2.operator_mul_scalar w s st).1)).1 := by
  refine ⟨?_, ?_, ?_⟩
  · simp [Vector2.operator_add, Vector2.ctor_xy, add_comm]
  · simp [Vector2.operator_mul, Vector2.ctor_xy, mul_comm]
  · simp [Vector2.operator_mul_scalar, Vector2.operator_add, Vector2.ctor_xy, h12, add_mul]

/-- C17 at concrete inputs.  Over `int`: with `v = (3,5)`, `w = (7,-2)` and
`s = 4`, `v + w = w + v = (10,3)`, `v * w = w * v = (21,-10)` and
`(v + w) * s = (v * s) + (w * s) = (40,12)`.  Over 8-bit wrap-around integers:
with `v = (200,3)`, `w = (100,5)` and `s = 3` the three equations hold, every
sum and product wrapping modulo 256. -/
theorem add_mul_comm_and_scale_distrib_witness :
    ((Vector2.operator_add 0 1 (twoVectors 3 5 7 (-2))).1 =
        (Vector2.operator_add 1 0 (twoVectors 3 5 7 (-2))).1 ∧
      (Vector2.operator_mul 0 1 (twoVectors 3 5 7 (-2))).1 =
        (Vector2.operator_mul 1 0 (twoVectors 3 5 7 (-2))).1 ∧
      (Vector2.operator_mul_scalar 2 4
        ((twoVectors 3 5 7 (-2)).declare 2
          (Vector2.operator_add 0 1 (twoVectors 3 5 7 (-2))).1)).1 =
        (Vector2.operator_add 2 3
          (((twoVectors 3 5 7 (-2)).declare 2
            (Vector2.operator_mul_scalar 0 4 (twoVectors 3 5 7 (-2))).1).declare 3
            (Vector2.operator_mul_scalar 1 4 (twoVectors 3 5 7 (-2))).1)).1) ∧
    ((Vector2.operator_add 0 1 (twoBytes 200 3 100 5)).1 =
        (Vector2.operator_add 1 0 (twoBytes 200 3 100 5)).1 ∧
      (Vector2.operator_mul 0 1 (twoBytes 200 3 100 5)).1 =
        (Vector2.operator_mul 1 0 (twoBytes 200 3 100 5)).1 ∧
      (Vector2.operator_mul_scalar 2 3
        ((twoBytes 200 3 100 5).declare 2
          (Vector2.operator_add 0 1 (twoBytes 200 3 100 5)).1)).1 =
        (Vector2.operator_add 2 3
          (((twoBytes 200 3 100 5).declare 2
            (Vector2.operator_mul_scalar 0 3 (twoBytes 200 3 100 5)).1).declare 3
            (Vector2.operator_mul_scalar 1 3 (twoBytes 200 3 100 5)).1)).1) :=
  ⟨add_mul_comm_and_scale_distrib (twoVectors 3 5 7 (-2)) 0 1 2 2 3 4 (by decide),
    add_mul_comm_and_scale_distrib (twoBytes 200 3 100 5) 0 1 2 2 3 3 (by decide)⟩

/-- The values in the `int` part of the C17 witness. -/
theorem twoVectors_scale_example :
    (Vector2.operator_add 0 1 (twoVectors 3 5 7 (-2))).1 = Vector2.ctor_xy 10 3 ∧
    (Vector2.operator_mul 0 1 (twoVectors 3 5 7 (-2))).1 = Vector2.ctor_xy 21 (-10) ∧
    (Vector2.operator_mul_scalar 2 4
      ((twoVectors 3 5 7 (-2)).declare 2
        (Vector2.operator_add 0 1 (twoVectors 3 5 7 (-2))).1)).1 = Vector2.ctor_xy 40 12 := by
  decide

end Algebra

end Math
